import Mathlib

/-!
Verification development for the Hyperfy agent-embodiment plugin.

Shallow embedding of the navigation / motion-control state machine of
`src/plugin-hyperfy/controls.ts` (class `AgentControls`) and of the
connection / chat / simulation logic of `src/plugin-hyperfy/service.ts`
(class `HyperfyService`), together with theorems settling the spec
claims.

Modelling conventions:
* JavaScript floating-point numbers are idealised as real numbers,
  `Date.now()` millisecond timestamps as integers, and
  `performance.now()` readings as rationals.
* A live `setInterval` / `setTimeout` handle is modelled as a `Bool`
  (`true` = a handle is stored, `false` = the field is `null`).
* JavaScript `Set` / `Map` objects are modelled as lists; membership is
  what matters for every claim.
* External side effects (logging, network sends, tweens) either do not
  touch the modelled state, or are surfaced as explicit result values.
-/

namespace Hyperfy

/-- Mirror of `createButtonState()` (controls.ts:11-18): one named virtual
control with `down` / `pressed` / `released` flags.  The `$button : true`
marker is implicit: in this typed model every entry of the key table is a
button state. -/
structure ButtonState where
  down : Bool
  pressed : Bool
  released : Bool
  deriving Repr, DecidableEq

/-- Mirror of `createButtonState()`: a fresh all-false button state. -/
def createButtonState : ButtonState :=
  { down := false, pressed := false, released := false }

/-- The `_currentNavKeys` snapshot (controls.ts:54-56). -/
structure NavKeys where
  forward : Bool
  backward : Bool
  left : Bool
  right : Bool
  deriving Repr, DecidableEq

/-- The all-false `_currentNavKeys` reset value. -/
def NavKeys.allOff : NavKeys :=
  { forward := false, backward := false, left := false, right := false }

/-- A THREE.Vector3 over idealised real coordinates. -/
structure Vec3 where
  x : ℝ
  y : ℝ
  z : ℝ

/-- A THREE.Quaternion over idealised real components. -/
structure Quat where
  x : ℝ
  y : ℝ
  z : ℝ
  w : ℝ

/-- The slice of `world.entities.player.base` that the controls read:
`position` and `quaternion`.  Over the reals every component is a finite
number, so the JS `typeof ... !== 'number'` / `isNaN` guards of
controls.ts collapse: an invalid or missing base is modelled as
`base = none` on `Player`. -/
structure PlayerBody where
  position : Vec3
  quaternion : Quat

/-- The slice of `world.entities.player` that the controls read.
`hasJumpFn` mirrors `typeof player.jump === 'function'`. -/
structure Player where
  base : Option PlayerBody
  hasJumpFn : Bool

/-- State of an `AgentControls` instance (controls.ts:20-88).
`player = none` models `world?.entities?.player` being unavailable
(a missing world collapses to the same branch in every guard). -/
structure AgentControls where
  keys : List (String × ButtonState)
  navigationTarget : Option Vec3
  isNavigating : Bool
  navigationIntervalActive : Bool
  currentNavKeys : NavKeys
  stopReason : Option String
  isWalkingRandomly : Bool
  randomWalkIntervalActive : Bool
  randomWalkIntervalMs : ℚ
  randomWalkMaxDistance : ℝ
  isJumping : Bool
  isCrouching : Bool
  lastJumpTime : ℤ
  player : Option Player

namespace AgentControls

/-- `NAVIGATION_STOP_DISTANCE = 1.0` (controls.ts:7). -/
def NAVIGATION_STOP_DISTANCE : ℝ := 1

/-- `_jumpCooldown = 1000` ms (controls.ts:71). -/
def jumpCooldownMs : ℤ := 1000

/-- The fixed `setTimeout(..., 800)` delay that resets `_isJumping`
(controls.ts:564-567). -/
def jumpStateResetDelayMs : ℤ := 800

/-- The `commonKeys` array initialised in the constructor
(controls.ts:79-84). -/
def commonKeys : List String :=
  ["keyW", "keyA", "keyS", "keyD", "space", "shiftLeft", "shiftRight",
   "controlLeft", "keyC", "keyF", "keyE", "arrowUp", "arrowDown",
   "arrowLeft", "arrowRight", "touchA", "touchB", "xrLeftStick",
   "xrRightStick", "xrLeftBtn1", "xrLeftBtn2", "xrRightBtn1", "xrRightBtn2"]

/-- Constructor state (controls.ts:50-88): every common key fresh, no
navigation, no random walk, no jump/crouch, defaults for the random-walk
parameters (controls.ts:8-9, 63-64, 68-74). -/
def initial (player : Option Player) : AgentControls :=
  { keys := commonKeys.map (fun k => (k, createButtonState))
    navigationTarget := none
    isNavigating := false
    navigationIntervalActive := false
    currentNavKeys := NavKeys.allOff
    stopReason := none
    isWalkingRandomly := false
    randomWalkIntervalActive := false
    randomWalkIntervalMs := 5000
    randomWalkMaxDistance := 7
    isJumping := false
    isCrouching := false
    lastJumpTime := 0
    player := player }

/-- The edge logic of `setKey` (controls.ts:102-109): rising edge sets
`pressed`, falling edge sets `released`, and `state.down = isDown` runs
in every case. -/
def buttonTransition (state : ButtonState) (isDown : Bool) : ButtonState :=
  if isDown && !state.down then
    { state with pressed := true, released := false, down := isDown }
  else if !isDown && state.down then
    { state with released := true, pressed := false, down := isDown }
  else
    { state with down := isDown }

/-- Store a button state under a name in the key table (the write-back of
the mutation `this[keyName] = ...` / in-place update). -/
def storeKey (keys : List (String × ButtonState)) (name : String)
    (st : ButtonState) : List (String × ButtonState) :=
  if (keys.lookup name).isSome then
    keys.map (fun p => cond (p.1 == name) (name, st) p)
  else
    (name, st) :: keys

/-- Mirror of `setKey(keyName, isDown)` (controls.ts:91-115): if the key
is missing (or, in JS, not a button state) a fresh `createButtonState()`
is installed first, then the edge logic is applied.  Never throws. -/
def setKey (s : AgentControls) (keyName : String) (isDown : Bool) :
    AgentControls :=
  let state := (s.keys.lookup keyName).getD createButtonState
  { s with keys := storeKey s.keys keyName (buttonTransition state isDown) }

/-- Read a key's state the way the tests observe it (missing keys read as
a fresh button state, matching what `setKey` would create). -/
def keyState (s : AgentControls) (keyName : String) : ButtonState :=
  (s.keys.lookup keyName).getD createButtonState

/-- Mirror of `stopRandomWalk("navigation stopped")`, the one call that
`stopNavigation` makes (controls.ts:223-225).  Because the reason is the
literal `"navigation stopped"`, the trailing
`stopNavigation("random walk stopped")` call inside `stopRandomWalk`
(controls.ts:405-407) is skipped, so this specialisation has no call
back into `stopNavigation`; the general `stopRandomWalk` below is proved
to agree with it at this reason. -/
def stopRandomWalkNavStopped (s : AgentControls) : AgentControls :=
  if !s.isWalkingRandomly && !s.randomWalkIntervalActive then s
  else { s with randomWalkIntervalActive := false, isWalkingRandomly := false }

/-- Mirror of `stopNavigation(reason)` (controls.ts:196-226): when
navigating (or with a live navigation interval) it stores the reason,
clears the interval, drops the target and flag, releases the five
movement keys, resets `_currentNavKeys`, and — unless the reason is
`"random walk tick"` — also stops an active random walk. -/
def stopNavigation (s : AgentControls) (reason : String) : AgentControls :=
  if s.isNavigating || s.navigationIntervalActive then
    let s1 := { s with stopReason := some reason,
                       navigationIntervalActive := false,
                       isNavigating := false,
                       navigationTarget := none }
    let s2 := setKey (setKey (setKey (setKey (setKey s1
                "keyW" false) "keyA" false) "keyS" false) "keyD" false)
                "shiftLeft" false
    let s3 := { s2 with currentNavKeys := NavKeys.allOff }
    if reason != "random walk tick" then stopRandomWalkNavStopped s3 else s3
  else s

/-- Mirror of `stopRandomWalk(reason)` (controls.ts:392-408). -/
def stopRandomWalk (s : AgentControls) (reason : String) : AgentControls :=
  if !s.isWalkingRandomly && !s.randomWalkIntervalActive then s
  else
    let s1 := { s with randomWalkIntervalActive := false,
                       isWalkingRandomly := false }
    if reason != "navigation stopped" then
      stopNavigation s1 "random walk stopped"
    else s1

/-- Mirror of `navigateTo(x, z)` (controls.ts:134-191).  The JS numeric
validity checks on position/quaternion are vacuous over the reals, so the
guarded abort branches reduce to the missing-player / missing-base
cases. -/
def navigateTo (s : AgentControls) (x z : ℝ) : AgentControls :=
  match s.player with
  | none => stopNavigation s "error - player missing"
  | some p =>
    match p.base with
    | none => stopNavigation s "error - player base missing"
    | some _ =>
      let s1 := stopNavigation s "starting new navigation"
      -- the interval is restarted when absent (controls.ts:187-190);
      -- after the stop above it is always absent, hence active again here
      { s1 with navigationTarget := some (Vec3.mk x 0 z),
                isNavigating := true,
                stopReason := none,
                currentNavKeys := NavKeys.allOff,
                navigationIntervalActive := true }

/-- Mirror of `getIsNavigating()` (controls.ts:231-233). -/
def getIsNavigating (s : AgentControls) : Bool := s.isNavigating

/-- Mirror of `getIsWalkingRandomly()` (controls.ts:413-415). -/
def getIsWalkingRandomly (s : AgentControls) : Bool := s.isWalkingRandomly

/-- Mirror of `startRandomWalk(intervalMs, maxDistance)`
(controls.ts:368-387): restart cleanly when already walking, record the
parameters, and arm the interval. -/
def startRandomWalk (s : AgentControls) (intervalMs : ℚ) (maxDistance : ℝ) :
    AgentControls :=
  let s1 := if s.isWalkingRandomly then stopRandomWalk s "restarting" else s
  { s1 with isWalkingRandomly := true,
            randomWalkIntervalMs := intervalMs,
            randomWalkMaxDistance := maxDistance,
            randomWalkIntervalActive := true }

/-- Mirror of `_randomWalkTick()` (controls.ts:420-466).  The two
`Math.random()` samples are surfaced as the `randomAngle` /
`randomDistance` parameters; an unavailable or invalid player position
falls back to `DEFAULT_POSITION = (0,0,0)`. -/
noncomputable def randomWalkTick (s : AgentControls)
    (randomAngle randomDistance : ℝ) : AgentControls :=
  if !s.isWalkingRandomly then s
  else
    let playerPos : Vec3 :=
      match s.player with
      | some p =>
        match p.base with
        | some body => body.position
        | none => Vec3.mk 0 0 0
      | none => Vec3.mk 0 0 0
    let offsetX := Real.cos randomAngle * randomDistance
    let offsetZ := Real.sin randomAngle * randomDistance
    navigateTo s (playerPos.x + offsetX) (playerPos.z + offsetZ)

/-- Observable effects of one `jump()` call that do not live in the
controls state: whether a world-level jump/tween action was attempted
(inside the `try` block, controls.ts:540-561, every exception there is
caught), and the delay of the scheduled `_isJumping` reset
(controls.ts:564-567), which is scheduled after — and independent of —
the `try`/`catch`, hence "regardless of outcome". -/
structure JumpEffects where
  attemptsWorldJump : Bool
  scheduledResetDelayMs : Option ℤ
  deriving Repr, DecidableEq

/-- Mirror of `jump()` (controls.ts:516-568): rejected with no state
change and no effects when the player is missing, a jump is in flight,
or the cooldown has not elapsed; otherwise marks the jump in flight,
records the time, attempts the world action and schedules the 800 ms
reset. -/
def jump (s : AgentControls) (currentTime : ℤ) :
    AgentControls × JumpEffects :=
  match s.player with
  | none => (s, { attemptsWorldJump := false, scheduledResetDelayMs := none })
  | some _ =>
    if s.isJumping then
      (s, { attemptsWorldJump := false, scheduledResetDelayMs := none })
    else if currentTime - s.lastJumpTime < jumpCooldownMs then
      (s, { attemptsWorldJump := false, scheduledResetDelayMs := none })
    else
      ({ s with isJumping := true, lastJumpTime := currentTime },
       { attemptsWorldJump := true,
         scheduledResetDelayMs := some jumpStateResetDelayMs })

/-- The body of the `setTimeout` scheduled by an accepted `jump()`
(controls.ts:564-567): clear the in-flight flag. -/
def jumpStateReset (s : AgentControls) : AgentControls :=
  { s with isJumping := false }

/-- Mirror of `_validatePlayerState` (controls.ts:470-508): requires
`player.base`; the THREE-instance and NaN checks are vacuous over the
reals (the in-tolerance quaternion renormalisation touches only the pose,
which `toggleCrouch` does not read afterwards). -/
def validatePlayerState (s : AgentControls) : Bool :=
  match s.player with
  | none => false
  | some p => p.base.isSome

/-- Mirror of `toggleCrouch()` (controls.ts:573-602): pose precondition,
flip the crouch flag, apply `controlLeft`, and cancel the crouch again if
a jump is in flight.  The height adjustment is an external side effect. -/
def toggleCrouch (s : AgentControls) : AgentControls :=
  if !(validatePlayerState s) then s
  else
    let s1 := { s with isCrouching := !s.isCrouching }
    let s2 := setKey s1 "controlLeft" s1.isCrouching
    if s2.isJumping && s2.isCrouching then
      let s3 := { s2 with isCrouching := false }
      setKey s3 "controlLeft" false
    else s2

/-- Mirror of `getIsJumping()` (controls.ts:607-609). -/
def getIsJumping (s : AgentControls) : Bool := s.isJumping

/-- Mirror of `getIsCrouching()` (controls.ts:614-616). -/
def getIsCrouching (s : AgentControls) : Bool := s.isCrouching

end AgentControls

namespace Vec3

/-- Componentwise subtraction (`THREE.Vector3.sub`). -/
def sub (a b : Vec3) : Vec3 := Vec3.mk (a.x - b.x) (a.y - b.y) (a.z - b.z)

/-- `THREE.Vector3.setY`. -/
def setY (v : Vec3) (c : ℝ) : Vec3 := { v with y := c }

/-- `THREE.Vector3.lengthSq`. -/
def lengthSq (v : Vec3) : ℝ := v.x * v.x + v.y * v.y + v.z * v.z

/-- `THREE.Vector3.length`. -/
noncomputable def length (v : Vec3) : ℝ := Real.sqrt (lengthSq v)

/-- `THREE.Vector3.dot`. -/
def dot (a b : Vec3) : ℝ := a.x * b.x + a.y * b.y + a.z * b.z

/-- `THREE.Vector3.crossVectors`. -/
def cross (a b : Vec3) : Vec3 :=
  Vec3.mk (a.y * b.z - a.z * b.y) (a.z * b.x - a.x * b.z) (a.x * b.y - a.y * b.x)

/-- `THREE.Vector3.divideScalar`. -/
noncomputable def divScalar (v : Vec3) (s : ℝ) : Vec3 := Vec3.mk (v.x / s) (v.y / s) (v.z / s)

/-- `THREE.Vector3.normalize`: `divideScalar(length() || 1)` — the zero
vector (the only vector on which `length()` is falsy) is left
unchanged. -/
noncomputable def normalize (v : Vec3) : Vec3 :=
  divScalar v (if length v = 0 then 1 else length v)

/-- `THREE.Vector3.distanceTo`. -/
noncomputable def distanceTo (a b : Vec3) : ℝ := length (sub a b)

/-- `THREE.Vector3.angleTo`: `acos(clamp(dot/denominator, -1, 1))` with
`PI/2` for a zero denominator.  `Real.arccos` already clamps its argument
to `[-1, 1]` exactly like the JS `clamp`. -/
noncomputable def angleTo (a b : Vec3) : ℝ :=
  let denominator := Real.sqrt (lengthSq a * lengthSq b)
  if denominator = 0 then Real.pi / 2
  else Real.arccos (dot a b / denominator)

/-- `THREE.Vector3.applyQuaternion` (the `t = 2 q×v` form used by
THREE). -/
def applyQuaternion (v : Vec3) (q : Quat) : Vec3 :=
  let tx := 2 * (q.y * v.z - q.z * v.y)
  let ty := 2 * (q.z * v.x - q.x * v.z)
  let tz := 2 * (q.x * v.y - q.y * v.x)
  Vec3.mk (v.x + q.w * tx + q.y * tz - q.z * ty)
          (v.y + q.w * ty + q.z * tx - q.x * tz)
          (v.z + q.w * tz + q.x * ty - q.y * tx)

end Vec3

namespace Quat

/-- `THREE.Quaternion.length`. -/
noncomputable def length (q : Quat) : ℝ :=
  Real.sqrt (q.x * q.x + q.y * q.y + q.z * q.z + q.w * q.w)

/-- `THREE.Quaternion.normalize`: the zero quaternion becomes the
identity `(0,0,0,1)`, otherwise all components are divided by the
length. -/
noncomputable def normalize (q : Quat) : Quat :=
  let l := length q
  if l = 0 then Quat.mk 0 0 0 1
  else Quat.mk (q.x / l) (q.y / l) (q.z / l) (q.w / l)

end Quat

namespace AgentControls

/-- `forwardThreshold = Math.PI / 18` (~10 degrees, controls.ts:340). -/
noncomputable def forwardThreshold : ℝ := Real.pi / 18

/-- `turnThreshold = Math.PI / 4` (45 degrees, controls.ts:341). -/
noncomputable def turnThreshold : ℝ := Real.pi / 4

/-- The desired-keys policy of `_navigationTick` as a function of the
signed heading angle (controls.ts:342-350): starting from all-false,
turn in place beyond the 45-degree threshold, otherwise move forward and
additionally steer beyond the ~10-degree deadband. -/
noncomputable def desiredNavKeys (signedAngle : ℝ) : NavKeys :=
  if |signedAngle| > turnThreshold then
    if signedAngle < 0 then { NavKeys.allOff with left := true }
    else { NavKeys.allOff with right := true }
  else
    if |signedAngle| > forwardThreshold then
      if signedAngle < 0 then { NavKeys.allOff with forward := true, left := true }
      else { NavKeys.allOff with forward := true, right := true }
    else { NavKeys.allOff with forward := true }

/-- The Apply-Keys block of `_navigationTick` (controls.ts:355-359):
write each button only when it differs from the `_currentNavKeys`
snapshot, force `keyS` off if the snapshot still holds backward, and
always clear `shiftLeft`. -/
def applyNavKeys (s : AgentControls) (desired : NavKeys) : AgentControls :=
  let s1 :=
    if desired.forward != s.currentNavKeys.forward then
      let t := setKey s "keyW" desired.forward
      { t with currentNavKeys := { t.currentNavKeys with forward := desired.forward } }
    else s
  let s2 :=
    if desired.left != s1.currentNavKeys.left then
      let t := setKey s1 "keyA" desired.left
      { t with currentNavKeys := { t.currentNavKeys with left := desired.left } }
    else s1
  let s3 :=
    if desired.right != s2.currentNavKeys.right then
      let t := setKey s2 "keyD" desired.right
      { t with currentNavKeys := { t.currentNavKeys with right := desired.right } }
    else s2
  let s4 :=
    if s3.currentNavKeys.backward then
      let t := setKey s3 "keyS" false
      { t with currentNavKeys := { t.currentNavKeys with backward := false } }
    else s3
  setKey s4 "shiftLeft" false

/-- The hold-position branch of `_navigationTick` for a degenerate
forward or direction vector (controls.ts:320-332): release `keyW`,
`keyA`, `keyD`, `keyS` and reset the snapshot, skipping the rest of the
tick. -/
def holdPosition (s : AgentControls) : AgentControls :=
  let t := setKey (setKey (setKey (setKey s "keyW" false) "keyA" false)
             "keyD" false) "keyS" false
  { t with currentNavKeys := NavKeys.allOff }

/-- The planar distance computed by `_navigationTick`
(controls.ts:302). -/
noncomputable def navDistanceXZ (pos target : Vec3) : ℝ :=
  Vec3.distanceTo (Vec3.setY pos 0) (Vec3.setY target 0)

/-- The `directionWorld` vector of `_navigationTick`
(controls.ts:314). -/
noncomputable def navDirectionWorld (pos target : Vec3) : Vec3 :=
  Vec3.normalize (Vec3.setY (Vec3.sub target pos) 0)

/-- The `forwardWorld` vector of `_navigationTick` (controls.ts:315),
including the preceding quaternion normalisation (controls.ts:291). -/
noncomputable def navForwardWorld (quat : Quat) : Vec3 :=
  Vec3.normalize (Vec3.setY
    (Vec3.applyQuaternion (Vec3.mk 0 0 (-1)) (Quat.normalize quat)) 0)

/-- The signed heading angle of `_navigationTick` (controls.ts:334-336):
magnitude from `angleTo`, sign from the vertical component of the cross
product. -/
noncomputable def navSignedAngle (pos target : Vec3) (quat : Quat) : ℝ :=
  let f := navForwardWorld quat
  let d := navDirectionWorld pos target
  let angle := Vec3.angleTo f d
  let crossFD := Vec3.cross f d
  if crossFD.y < 0 then -angle else angle

/-- Mirror of `_navigationTick()` (controls.ts:238-361).  The JS checks
for non-numeric or NaN pose components are vacuous over the reals, so
the abort branches reduce to the missing-player / missing-base cases;
the `Number.isNaN` halves of the degeneracy guards (controls.ts:320,
327) likewise collapse, leaving the `lengthSq < 0.001` tests. -/
noncomputable def navigationTick (s : AgentControls) : AgentControls :=
  if !s.isNavigating then { s with navigationIntervalActive := false }
  else
    match s.navigationTarget with
    | none => { s with navigationIntervalActive := false }
    | some target =>
      match s.player with
      | none => stopNavigation s "tick error - player missing"
      | some p =>
        match p.base with
        | none => stopNavigation s "tick error - player base missing"
        | some body =>
          let distanceXZ := navDistanceXZ body.position target
          if distanceXZ ≤ NAVIGATION_STOP_DISTANCE then
            stopNavigation s "reached target"
          else
            let directionWorld := navDirectionWorld body.position target
            let forwardWorld := navForwardWorld body.quaternion
            if forwardWorld.lengthSq < 0.001 then holdPosition s
            else if directionWorld.lengthSq < 0.001 then holdPosition s
            else
              applyNavKeys s
                (desiredNavKeys (navSignedAngle body.position target body.quaternion))

end AgentControls

namespace HyperfyService

/-- A chat message as seen by the subscription callback
(service.ts:906-941): only `id` and `createdAt` steer the logic.
`createdAt = none` models an absent field; a present field is its parsed
millisecond timestamp (`new Date(msg.createdAt).getTime()`), with an
unparseable date collapsing to `none` as well (both make
`messageTimestamp` falsy, see below). -/
structure ChatMsg where
  id : Option String
  createdAt : Option ℕ
  deriving Repr, DecidableEq

/-- `msg.id?.toString()` under JS truthiness (service.ts:919, 926-927):
an absent id, and the empty string, are falsy and treated as no id. -/
def msgIdStr (m : ChatMsg) : Option String :=
  match m.id with
  | none => none
  | some i => if i = "" then none else some i

/-- `messageTimestamp` (service.ts:915): the parsed `createdAt`, else
`0`; the subsequent `!messageTimestamp` test makes `0` equivalent to
"no timestamp". -/
def messageTimestamp (m : ChatMsg) : ℕ := m.createdAt.getD 0

/-- Step 1 of the subscription callback for a single message
(service.ts:913-931): a historical or timestampless message is skipped
but its (truthy) id is still marked processed; a fresh message with an
unseen id is marked processed immediately and flagged for dispatch. -/
def processChatMsg (connectionTime : ℕ) (processed : List String)
    (m : ChatMsg) : List String × Bool :=
  let ts := messageTimestamp m
  if ts = 0 ∨ ts ≤ connectionTime then
    (match msgIdStr m with
     | some i => if i ∈ processed then processed else i :: processed
     | none => processed,
     false)
  else
    match msgIdStr m with
    | some i =>
      if i ∈ processed then (processed, false) else (i :: processed, true)
    | none => (processed, false)

/-- The `msgs.forEach` scan of Step 1 (service.ts:913-931), returning
the updated processed-id set and `newMessagesFound` in arrival order;
Step 2 (service.ts:934-940) then dispatches exactly this list, in order,
to `messageManager.handleMessage`. -/
def processMsgs (connectionTime : ℕ) :
    List String → List ChatMsg → List String × List ChatMsg
  | processed, [] => (processed, [])
  | processed, m :: rest =>
    let r := processChatMsg connectionTime processed m
    let rr := processMsgs connectionTime r.1 rest
    (rr.1, if r.2 then m :: rr.2 else rr.2)

/-- The service fields read by the chat-subscription closure.  `ready`
models `world && world.chat && world.entities?.player` all being
available (service.ts:908). -/
structure ChatSub where
  ready : Bool
  connectionTime : Option ℕ
  processedMsgIds : List String
  deriving Repr, DecidableEq

/-- One invocation of the subscription callback on a message batch
(service.ts:906-941): the guard drops the batch when the world, chat,
player, or a truthy `connectionTime` is missing; otherwise the batch is
scanned and the newly found messages are dispatched.  The returned list
is the sequence of messages handed to `messageManager.handleMessage`. -/
def chatCallback (s : ChatSub) (msgs : List ChatMsg) :
    ChatSub × List ChatMsg :=
  match s.connectionTime with
  | none => (s, [])
  | some ct =>
    if !s.ready ∨ ct = 0 then (s, [])
    else
      let r := processMsgs ct s.processedMsgIds msgs
      ({ s with processedMsgIds := r.1 }, r.2)

/-- Sequential delivery of several (possibly overlapping) batches to the
subscription callback, concatenating the dispatched messages. -/
def chatCallbacks (s : ChatSub) :
    List (List ChatMsg) → ChatSub × List ChatMsg
  | [] => (s, [])
  | b :: bs =>
    let r := chatCallback s b
    let rr := chatCallbacks r.1 bs
    (rr.1, r.2 ++ rr.2)

/-- The lifecycle-relevant fields of a `HyperfyService` instance
(service.ts:48-75).  Timer handles and object references are modelled as
presence booleans; the entity cache, name registry and processed-id set
as lists. -/
structure ServiceState where
  world : Bool
  controls : Bool
  isConnectedState : Bool
  currentEntities : List String
  playerNamesMap : List (String × String)
  processedMsgIds : List String
  connectionTime : Option ℕ
  wsUrl : Option String
  currentWorldId : Option String
  agentStateHasData : Bool
  tickIntervalId : Bool
  entityUpdateIntervalId : Bool
  randomMoveIntervalId : Bool
  randomChatIntervalId : Bool
  appearanceIntervalId : Bool
  appearanceSet : Bool
  nameSet : Bool
  isPhysicsSetup : Bool
  physx : Bool
  entityListenersAttached : Bool
  deriving Repr, DecidableEq

/-- Mirror of `stopSimulation()` (service.ts:996-1002). -/
def stopSimulation (s : ServiceState) : ServiceState :=
  { s with tickIntervalId := false }

/-- Mirror of `stopEntityUpdates()` (service.ts:845-851). -/
def stopEntityUpdates (s : ServiceState) : ServiceState :=
  { s with entityUpdateIntervalId := false }

/-- Mirror of `stopRandomChatting()` — an empty stub in the source
(service.ts:1005). -/
def stopRandomChatting (s : ServiceState) : ServiceState := s

/-- Mirror of `stopAppearancePolling()` (service.ts:539-545). -/
def stopAppearancePolling (s : ServiceState) : ServiceState :=
  { s with appearanceIntervalId := false }

/-- Mirror of `handleDisconnect()` (service.ts:638-691): early return
when neither connected nor holding a world; otherwise stop every timer,
detach the entity listeners (possible only while the world reference is
still set), tear down the world (network disconnect / destroy are
external, exceptions swallowed), null the references, clear every cache
and the processed-id set and the connection time, and clear the five
interval handles once more. -/
def handleDisconnect (s : ServiceState) : ServiceState :=
  if !s.isConnectedState && !s.world then s
  else
    let s1 := { s with isConnectedState := false }
    let s2 := stopAppearancePolling (stopRandomChatting
                (stopEntityUpdates (stopSimulation s1)))
    let s3 := if s2.world then { s2 with entityListenersAttached := false }
              else s2
    { s3 with world := false, controls := false, currentEntities := [],
              playerNamesMap := [], agentStateHasData := false,
              wsUrl := none, appearanceSet := false, isPhysicsSetup := false,
              physx := false, processedMsgIds := [], connectionTime := none,
              tickIntervalId := false, entityUpdateIntervalId := false,
              randomMoveIntervalId := false, randomChatIntervalId := false,
              appearanceIntervalId := false }

/-- The `config` argument of `connect` (service.ts:161); the auth token
never reaches the modelled state. -/
structure ConnectConfig where
  wsUrl : String
  worldId : String
  deriving Repr, DecidableEq

/-- Environment data consumed during a successful connect: the entity
ids and player names found in the freshly initialised world
(service.ts:257-262), the ids of pre-existing chat messages
(service.ts:267-276), and the `Date.now()` reading recorded on success
(service.ts:293). -/
structure ConnectEnv where
  initialEntities : List String
  initialPlayerNames : List (String × String)
  chatHistoryIds : List String
  now : ℕ
  deriving Repr, DecidableEq

/-- The state-relevant actions inside the `try` block of `connect`
(service.ts:174-295), in program order.  Steps that only wire external
collaborators (system construction details, the chat.add override,
`world.init`, event subscription, manager construction) leave the
modelled state unchanged but remain distinct failure points. -/
def connectStep (env : ConnectEnv) (k : ℕ) (s : ServiceState) :
    ServiceState :=
  match k with
  | 0 => { s with world := true }            -- createNodeClientWorld, this.world = world
  | 1 => { s with controls := true }         -- systems incl. new AgentControls
  | 2 => s                                   -- await world.init(hyperfyConfig)
  | 3 => { s with entityListenersAttached := true,   -- attach listeners,
                  currentEntities := env.initialEntities,   -- rebuild caches
                  playerNamesMap := env.initialPlayerNames }
  | 4 => { s with processedMsgIds := env.chatHistoryIds }  -- seed from history
  | 5 => s                                   -- subscribeToHyperfyEvents()
  | 6 => { s with isConnectedState := true }
  | 7 => s                                   -- manager construction
  | 8 => { s with tickIntervalId := true,            -- startSimulation
                  entityUpdateIntervalId := true,    -- startEntityUpdates
                  appearanceIntervalId := true }     -- startAppearancePolling
  | 9 => { s with connectionTime := some env.now }
  | _ => s

/-- Apply the first `n` connect steps. -/
def connectStepsUpTo (env : ConnectEnv) : ℕ → ServiceState → ServiceState
  | 0, s => s
  | n + 1, s => connectStep env n (connectStepsUpTo env n s)

/-- The code before the `try` block (service.ts:162-172): a forced
disconnect when already connected, then the session-field
assignments. -/
def connectPreamble (cfg : ConnectConfig) (s : ServiceState) :
    ServiceState :=
  { (if s.isConnectedState then handleDisconnect s else s) with
    wsUrl := some cfg.wsUrl
    currentWorldId := some cfg.worldId
    appearanceSet := false
    nameSet := false
    isPhysicsSetup := false }

/-- Number of modelled connect steps. -/
def connectStepCount : ℕ := 10

/-- Mirror of `connect(config)` (service.ts:161-301) with an injected
failure point: `failAt = some k` makes step `k` throw after steps
`0..k-1` have run, upon which the `catch` block (service.ts:296-300)
runs `handleDisconnect()` and re-throws.  The first component is the
call's outcome, the second the service state when control returns to the
caller. -/
def connect (s : ServiceState) (cfg : ConnectConfig) (env : ConnectEnv)
    (failAt : Option ℕ) : Except Unit ServiceState × ServiceState :=
  let s0 := connectPreamble cfg s
  match failAt with
  | none =>
    let sF := connectStepsUpTo env connectStepCount s0
    (Except.ok sF, sF)
  | some k =>
    let sk := connectStepsUpTo env (min k connectStepCount) s0
    let sE := handleDisconnect sk
    (Except.error (), sE)

/-- The teardown postcondition claimed for a failed connect: timers
stopped, listeners detached, entity cache, name registry and
processed-message-id set cleared, world and controls references nulled,
marked disconnected (and the connection time cleared with it). -/
def TornDown (s : ServiceState) : Prop :=
  s.isConnectedState = false ∧ s.world = false ∧ s.controls = false ∧
  s.currentEntities = [] ∧ s.playerNamesMap = [] ∧
  s.processedMsgIds = [] ∧ s.connectionTime = none ∧
  s.tickIntervalId = false ∧ s.entityUpdateIntervalId = false ∧
  s.randomMoveIntervalId = false ∧ s.randomChatIntervalId = false ∧
  s.appearanceIntervalId = false ∧ s.entityListenersAttached = false

/-- Reachable-state invariant used for the failed-connect theorem: a
service that is neither connected nor holding a world is already torn
down (true of a fresh instance and re-established by every teardown),
and entity listeners are only ever attached while a world is held. -/
def ServiceInv (s : ServiceState) : Prop :=
  (s.isConnectedState = false ∧ s.world = false → TornDown s) ∧
  (s.entityListenersAttached = true → s.world = true)

/-- `HYPERFY_TICK_RATE = 50` (service.ts:38). -/
def HYPERFY_TICK_RATE : ℚ := 50

/-- `tickIntervalMs = 1000 / HYPERFY_TICK_RATE` (service.ts:946). -/
def tickIntervalMs : ℚ := 1000 / HYPERFY_TICK_RATE

/-- `tickErrorLogInterval = 10000` ms (service.ts:949). -/
def tickErrorLogInterval : ℚ := 10000

/-- The service fields read by one `tickLoop` iteration
(service.ts:951-990), plus the closure-local `lastTickErrorLogTime`. -/
structure SimLoop where
  worldPresent : Bool
  isConnectedState : Bool
  tickIntervalId : Bool
  lastTickErrorLogTime : ℚ
  deriving Repr, DecidableEq

/-- An exception thrown by `world.tick`: `isDocRefError` mirrors the
`e instanceof ReferenceError` with a message containing
"document is not defined" (service.ts:970). -/
structure TickErr where
  isDocRefError : Bool
  deriving Repr, DecidableEq

/-- Console output of one iteration that the claim cares about. -/
inductive TickLog where
  | suppressedDocRefWarn
  | tickError
  deriving Repr, DecidableEq

/-- What one iteration decides to do next. -/
inductive SimIterNext where
  | stopped
  | rescheduled (delayMs : ℚ)
  | notRescheduled
  deriving Repr, DecidableEq

/-- One iteration of `tickLoop` (service.ts:951-990): stop (clearing the
timer) when the world or the connection is gone; otherwise run
`world.tick` — a thrown error is caught, with the document-ReferenceError
logged at most once per `tickErrorLogInterval` and any other error
logged normally — and reschedule after `max(0, tickIntervalMs −
elapsed)` provided the timer handle was not cleared during the tick.
`disconnectsDuringTick` models `world.tick` re-entrantly triggering
`handleDisconnect()` (the only live path that clears `tickIntervalId`
from inside a tick), which also flips the connection state and drops the
world. -/
def simTickIter (s : SimLoop) (now elapsed : ℚ) (err : Option TickErr)
    (disconnectsDuringTick : Bool) : SimLoop × SimIterNext × List TickLog :=
  if !s.worldPresent ∨ !s.isConnectedState then
    ({ s with tickIntervalId := false }, SimIterNext.stopped, [])
  else
    let logged : List TickLog × ℚ :=
      match err with
      | none => ([], s.lastTickErrorLogTime)
      | some e =>
        if e.isDocRefError then
          if now - s.lastTickErrorLogTime > tickErrorLogInterval then
            ([TickLog.suppressedDocRefWarn], now)
          else ([], s.lastTickErrorLogTime)
        else ([TickLog.tickError], s.lastTickErrorLogTime)
    let s1 := { s with lastTickErrorLogTime := logged.2 }
    let s2 := if disconnectsDuringTick then
                { s1 with isConnectedState := false, worldPresent := false,
                          tickIntervalId := false }
              else s1
    if s2.tickIntervalId then
      (s2, SimIterNext.rescheduled (max 0 (tickIntervalMs - elapsed)), logged.1)
    else (s2, SimIterNext.notRescheduled, logged.1)

end HyperfyService

/-! ### Example fixtures used by witnesses and counterexamples -/

/-- A well-formed player body at the origin with identity orientation. -/
def exampleBody : PlayerBody :=
  { position := Vec3.mk 0 0 0, quaternion := Quat.mk 0 0 0 1 }

/-- A player with a valid base and no native jump capability. -/
def examplePlayer : Player := { base := some exampleBody, hasJumpFn := false }

/-! ### Key-table lemmas -/

theorem buttonTransition_down (st : ButtonState) (d : Bool) :
    (AgentControls.buttonTransition st d).down = d := by
  unfold AgentControls.buttonTransition
  split
  · rfl
  · split <;> rfl

theorem lookup_map_replace (keys : List (String × ButtonState)) (n : String)
    (st : ButtonState) (h : (keys.lookup n).isSome = true) :
    (keys.map (fun p => cond (p.1 == n) (n, st) p)).lookup n = some st := by
  induction keys with
  | nil => simp [List.lookup] at h
  | cons p rest ih =>
    by_cases hp : p.1 = n
    · have hb : (p.1 == n) = true := beq_iff_eq.mpr hp
      simp [List.lookup, hb]
    · have hb : (p.1 == n) = false := beq_eq_false_iff_ne.mpr hp
      have hnb : (n == p.1) = false := beq_eq_false_iff_ne.mpr (fun e => hp e.symm)
      have h' : (rest.lookup n).isSome = true := by
        simpa [List.lookup, hnb] using h
      simp [List.lookup, hb, hnb, ih h']

theorem lookup_map_replace_other (keys : List (String × ButtonState))
    (n n' : String) (st : ButtonState) (h : n' ≠ n) :
    (keys.map (fun p => cond (p.1 == n) (n, st) p)).lookup n' =
      keys.lookup n' := by
  have hb : (n' == n) = false := beq_eq_false_iff_ne.mpr h
  induction keys with
  | nil => rfl
  | cons p rest ih =>
    by_cases hp : p.1 = n
    · have hb1 : (p.1 == n) = true := beq_iff_eq.mpr hp
      have hb2 : (n' == p.1) = false := by rw [hp]; exact hb
      simp [List.lookup, hb1, hb2, hb, ih]
    · have hb1 : (p.1 == n) = false := beq_eq_false_iff_ne.mpr hp
      cases hq : (n' == p.1) <;> simp [List.lookup, hb1, hq, ih]

theorem lookup_storeKey (keys : List (String × ButtonState)) (n : String)
    (st : ButtonState) : (AgentControls.storeKey keys n st).lookup n = some st := by
  unfold AgentControls.storeKey
  by_cases h : (keys.lookup n).isSome = true
  · simpa [h] using lookup_map_replace keys n st h
  · simp [h, List.lookup]

theorem lookup_storeKey_other (keys : List (String × ButtonState))
    (n n' : String) (st : ButtonState) (h : n' ≠ n) :
    (AgentControls.storeKey keys n st).lookup n' = keys.lookup n' := by
  have hb : (n' == n) = false := beq_eq_false_iff_ne.mpr h
  unfold AgentControls.storeKey
  by_cases hs : (keys.lookup n).isSome = true
  · simpa [hs] using lookup_map_replace_other keys n n' st h
  · simp [hs, List.lookup, hb]

theorem keyState_setKey_same (s : AgentControls) (n : String) (d : Bool) :
    AgentControls.keyState (AgentControls.setKey s n d) n =
      AgentControls.buttonTransition (AgentControls.keyState s n) d := by
  simp [AgentControls.keyState, AgentControls.setKey, lookup_storeKey]

theorem keyState_setKey_other (s : AgentControls) (n n' : String) (d : Bool)
    (h : n' ≠ n) :
    AgentControls.keyState (AgentControls.setKey s n d) n' =
      AgentControls.keyState s n' := by
  simp [AgentControls.keyState, AgentControls.setKey, lookup_storeKey_other _ _ _ _ h]

/-! ### Stop-navigation structure lemmas -/

theorem stopRandomWalkNavStopped_isNavigating (s : AgentControls) :
    (AgentControls.stopRandomWalkNavStopped s).isNavigating = s.isNavigating := by
  unfold AgentControls.stopRandomWalkNavStopped
  split <;> rfl

theorem stopRandomWalkNavStopped_intervalActive (s : AgentControls) :
    (AgentControls.stopRandomWalkNavStopped s).navigationIntervalActive =
      s.navigationIntervalActive := by
  unfold AgentControls.stopRandomWalkNavStopped
  split <;> rfl

theorem stopNavigation_noop (s : AgentControls) (r : String)
    (h1 : s.isNavigating = false) (h2 : s.navigationIntervalActive = false) :
    AgentControls.stopNavigation s r = s := by
  unfold AgentControls.stopNavigation
  simp [h1, h2]

theorem stopNavigation_clears (s : AgentControls) (r : String) :
    (AgentControls.stopNavigation s r).isNavigating = false ∧
      (AgentControls.stopNavigation s r).navigationIntervalActive = false := by
  unfold AgentControls.stopNavigation
  by_cases hg : (s.isNavigating || s.navigationIntervalActive) = true
  · simp only [hg, if_true]
    split
    · exact ⟨by simp [stopRandomWalkNavStopped_isNavigating, AgentControls.setKey],
             by simp [stopRandomWalkNavStopped_intervalActive, AgentControls.setKey]⟩
    · exact ⟨by simp [AgentControls.setKey], by simp [AgentControls.setKey]⟩
  · simp only [Bool.or_eq_true, not_or, Bool.not_eq_true] at hg
    simp [hg.1, hg.2]

/-- C6: `stopNavigation` is idempotent: called twice consecutively (with
any reasons) it yields a state identical to calling it once, and calling
it while already stopped (no navigation flag, no live interval) is a
no-op on the whole state — in particular on the navigation flag, the
target, the interval handle, the button states and the random-walk
flag. -/
theorem stopNavigation_idempotent :
    (∀ (s : AgentControls) (r1 r2 : String),
      AgentControls.stopNavigation (AgentControls.stopNavigation s r1) r2 =
        AgentControls.stopNavigation s r1) ∧
    (∀ (s : AgentControls) (r : String),
      s.isNavigating = false → s.navigationIntervalActive = false →
      AgentControls.stopNavigation s r = s) :=
  ⟨fun s r1 r2 =>
    stopNavigation_noop _ r2 (stopNavigation_clears s r1).1
      (stopNavigation_clears s r1).2,
   fun s r h1 h2 => stopNavigation_noop s r h1 h2⟩

/-- Witness for C6 at a concrete stopped state. -/
theorem stopNavigation_idempotent_witness :
    AgentControls.stopNavigation (AgentControls.initial none) "commanded" =
      AgentControls.initial none :=
  stopNavigation_idempotent.2 (AgentControls.initial none) "commanded" rfl rfl

/-- C10: `setKey` is total over arbitrary key names: a missing control is
replaced by a fresh all-false button state instead of throwing, after
which the edge logic runs — so `setKey name true` on an unknown name
yields `down = true, pressed = true`; the control exists after any
`setKey`; and a `setKey` with an unchanged `down` value leaves the
button state exactly as it was (no new edge flag). -/
theorem setKey_total_on_unknown_keys :
    (∀ (s : AgentControls) (name : String),
      s.keys.lookup name = none →
      AgentControls.keyState (AgentControls.setKey s name true) name =
        { down := true, pressed := true, released := false }) ∧
    (∀ (s : AgentControls) (name : String) (d : Bool),
      ((AgentControls.setKey s name d).keys.lookup name).isSome = true) ∧
    (∀ (s : AgentControls) (name : String) (st : ButtonState) (d : Bool),
      s.keys.lookup name = some st → st.down = d →
      AgentControls.keyState (AgentControls.setKey s name d) name = st) := by
  refine ⟨fun s name h => ?_, fun s name d => ?_, fun s name st d h hd => ?_⟩
  · rw [keyState_setKey_same]
    simp [AgentControls.keyState, h, createButtonState,
      AgentControls.buttonTransition]
  · simp [AgentControls.setKey, lookup_storeKey]
  · rw [keyState_setKey_same]
    have hst : AgentControls.keyState s name = st := by
      simp [AgentControls.keyState, h]
    rw [hst]
    subst hd
    cases st with
    | mk dn pr rl => cases dn <;> simp [AgentControls.buttonTransition]

/-- Witness for C10: an unknown key gets a fresh state with the rising
edge applied, and an unchanged-value write on a known key changes
nothing. -/
theorem setKey_total_on_unknown_keys_witness :
    AgentControls.keyState
        (AgentControls.setKey (AgentControls.initial none) "unknownKey" true)
        "unknownKey" =
      { down := true, pressed := true, released := false } ∧
    AgentControls.keyState
        (AgentControls.setKey (AgentControls.initial none) "keyW" false)
        "keyW" = createButtonState :=
  ⟨setKey_total_on_unknown_keys.1 (AgentControls.initial none) "unknownKey"
      (by decide),
   setKey_total_on_unknown_keys.2.2 (AgentControls.initial none) "keyW"
      createButtonState false (by decide) rfl⟩

/-- C7: a `jump()` issued while a jump is in flight, or before the
1000 ms cooldown has elapsed, is a no-op: the state (in-flight flag,
last-jump time, everything else) is unchanged and no side effect is
produced; an accepted jump schedules the in-flight reset after the fixed
800 ms delay (independent of the world action's outcome, which is
attempted inside a caught `try`), and the reset clears the flag. -/
theorem jump_reentry_noop_and_fixed_reset :
    (∀ (s : AgentControls) (t : ℤ),
      s.player.isSome = true → AgentControls.getIsJumping s = true →
      AgentControls.jump s t =
        (s, { attemptsWorldJump := false, scheduledResetDelayMs := none })) ∧
    (∀ (s : AgentControls) (t : ℤ),
      s.player.isSome = true → AgentControls.getIsJumping s = false →
      t - s.lastJumpTime < AgentControls.jumpCooldownMs →
      AgentControls.jump s t =
        (s, { attemptsWorldJump := false, scheduledResetDelayMs := none })) ∧
    (∀ (s : AgentControls) (t : ℤ),
      s.player.isSome = true → AgentControls.getIsJumping s = false →
      AgentControls.jumpCooldownMs ≤ t - s.lastJumpTime →
      (AgentControls.jump s t).2.scheduledResetDelayMs =
          some AgentControls.jumpStateResetDelayMs ∧
        AgentControls.getIsJumping (AgentControls.jump s t).1 = true ∧
        (AgentControls.jump s t).1.lastJumpTime = t) ∧
    (∀ s : AgentControls,
      AgentControls.getIsJumping (AgentControls.jumpStateReset s) = false) := by
  refine ⟨fun s t hp hj => ?_, fun s t hp hj hc => ?_,
          fun s t hp hj hc => ?_, fun s => rfl⟩
  · obtain ⟨p, hpe⟩ := Option.isSome_iff_exists.mp hp
    simp only [AgentControls.getIsJumping] at hj
    simp [AgentControls.jump, hpe, hj]
  · obtain ⟨p, hpe⟩ := Option.isSome_iff_exists.mp hp
    simp only [AgentControls.getIsJumping] at hj
    simp [AgentControls.jump, hpe, hj, hc]
  · obtain ⟨p, hpe⟩ := Option.isSome_iff_exists.mp hp
    simp only [AgentControls.getIsJumping] at hj
    have hnc : ¬(t - s.lastJumpTime < AgentControls.jumpCooldownMs) :=
      not_lt.mpr hc
    simp [AgentControls.jump, hpe, hj, hnc, AgentControls.getIsJumping]

/-- Witness for C7: the second `jump()` 500 ms after an accepted one is
rejected with no state change and no effects. -/
theorem jump_reentry_noop_witness :
    AgentControls.jump
        ((AgentControls.jump (AgentControls.initial (some examplePlayer)) 1000).1)
        1500 =
      ((AgentControls.jump (AgentControls.initial (some examplePlayer)) 1000).1,
       { attemptsWorldJump := false, scheduledResetDelayMs := none }) :=
  jump_reentry_noop_and_fixed_reset.1 _ 1500 (by decide) (by decide)

/-- State reached by crouching and then jumping from a fresh controls
instance with a valid player, at a time past the jump cooldown. -/
def crouchThenJumpState : AgentControls :=
  (AgentControls.jump
    (AgentControls.toggleCrouch (AgentControls.initial (some examplePlayer)))
    2000).1

/-- C3 counterexample: from a fresh instance, `toggleCrouch()` followed
by an accepted `jump()` leaves BOTH `getIsJumping()` and
`getIsCrouching()` true — `jump()` does not cancel the crouch, so the
claimed mutual exclusion fails on a reachable state. -/
theorem jump_while_crouched_keeps_crouch :
    AgentControls.getIsJumping crouchThenJumpState = true ∧
      AgentControls.getIsCrouching crouchThenJumpState = true := by
  decide

/-- C3 amended: the exclusion holds in the one direction the code
implements — a `toggleCrouch()` call (with a valid pose) never leaves
crouch active while a jump is in flight — but `jump()` leaves the crouch
flag exactly as it was, so jumping while crouched keeps both flags
set. -/
theorem toggleCrouch_jump_exclusion_amended :
    (∀ s : AgentControls, AgentControls.validatePlayerState s = true →
      ¬(AgentControls.getIsJumping (AgentControls.toggleCrouch s) = true ∧
        AgentControls.getIsCrouching (AgentControls.toggleCrouch s) = true)) ∧
    (∀ (s : AgentControls) (t : ℤ),
      AgentControls.getIsCrouching (AgentControls.jump s t).1 =
        AgentControls.getIsCrouching s) := by
  constructor
  · intro s hv hcontra
    obtain ⟨hj, hc⟩ := hcontra
    simp only [AgentControls.toggleCrouch, hv, Bool.not_true,
      AgentControls.getIsJumping, AgentControls.getIsCrouching,
      AgentControls.setKey] at hj hc
    by_cases hj0 : s.isJumping <;> by_cases hc0 : s.isCrouching <;>
      simp_all
  · intro s t
    cases hp : s.player with
    | none => simp [AgentControls.jump, hp, AgentControls.getIsCrouching]
    | some p =>
      simp only [AgentControls.jump, hp, AgentControls.getIsCrouching]
      split
      · rfl
      · split <;> rfl

/-- Witness for the amended C3 at a fresh instance with a valid
player. -/
theorem toggleCrouch_jump_exclusion_amended_witness :
    (¬(AgentControls.getIsJumping
          (AgentControls.toggleCrouch (AgentControls.initial (some examplePlayer))) = true ∧
       AgentControls.getIsCrouching
          (AgentControls.toggleCrouch (AgentControls.initial (some examplePlayer))) = true)) ∧
    AgentControls.getIsCrouching
        (AgentControls.jump (AgentControls.initial (some examplePlayer)) 1000).1 =
      AgentControls.getIsCrouching (AgentControls.initial (some examplePlayer)) :=
  ⟨toggleCrouch_jump_exclusion_amended.1 _ (by decide),
   toggleCrouch_jump_exclusion_amended.2 _ 1000⟩

/-- A controls state in the middle of a random walk: the walk is active
with a live scheduler interval, and the current leg is still navigating
toward its target. -/
def walkingMidLegState : AgentControls :=
  { AgentControls.initial (some examplePlayer) with
      isWalkingRandomly := true, randomWalkIntervalActive := true,
      isNavigating := true, navigationIntervalActive := true,
      navigationTarget := some (Vec3.mk 5 0 5) }

/-- C2 (evaluation at the failing input): when the random-walk tick
itself issues `navigateTo` for a new leg while the previous leg is still
navigating, the walk is cancelled — `navigateTo` stops the old leg with
reason "starting new navigation", which does not match the
"random walk tick" guard in `stopNavigation`, so `stopRandomWalk` fires
and `getIsWalkingRandomly()` becomes false even though the new leg's
navigation starts. -/
theorem randomWalkTick_mid_leg_cancels_walk :
    AgentControls.getIsWalkingRandomly
        (AgentControls.randomWalkTick walkingMidLegState 0 0) = false ∧
      AgentControls.getIsNavigating
        (AgentControls.randomWalkTick walkingMidLegState 0 0) = true := by
  decide

/-! ### Chat deduplication (C1) -/

section ChatClaims

open HyperfyService

/-- Number of dispatched messages carrying a given (truthy) id. -/
def dispatchCount (x : String) (ds : List ChatMsg) : ℕ :=
  (ds.filter (fun m => msgIdStr m == some x)).length

theorem processChatMsg_mem (ct : ℕ) (processed : List String) (m : ChatMsg)
    (x : String) :
    x ∈ (processChatMsg ct processed m).1 ↔
      x ∈ processed ∨ msgIdStr m = some x := by
  cases hid : msgIdStr m with
  | none =>
    by_cases hskip : messageTimestamp m = 0 ∨ messageTimestamp m ≤ ct <;>
      simp [processChatMsg, hskip, hid]
  | some i =>
    by_cases hskip : messageTimestamp m = 0 ∨ messageTimestamp m ≤ ct <;>
      by_cases hi : i ∈ processed <;>
      simp only [processChatMsg, hskip, hid, hi, if_true, if_false, ite_true,
        ite_false, List.mem_cons, Option.some.injEq] <;>
      aesop

theorem processChatMsg_dispatch_iff (ct : ℕ) (processed : List String)
    (m : ChatMsg) (i : String) (hid : msgIdStr m = some i) :
    (processChatMsg ct processed m).2 = true ↔
      (ct < messageTimestamp m ∧ i ∉ processed) := by
  by_cases hskip : messageTimestamp m = 0 ∨ messageTimestamp m ≤ ct
  · have hle : messageTimestamp m ≤ ct :=
      hskip.elim (fun h => h ▸ Nat.zero_le ct) id
    simp [processChatMsg, hskip, not_lt.mpr hle]
  · have hlt : ct < messageTimestamp m :=
      lt_of_not_le (fun h => hskip (Or.inr h))
    by_cases hi : i ∈ processed <;> simp [processChatMsg, hskip, hid, hi, hlt]

theorem processChatMsg_insert_before_dispatch (ct : ℕ)
    (processed : List String) (m : ChatMsg)
    (h : (processChatMsg ct processed m).2 = true) :
    ∃ i, msgIdStr m = some i ∧ i ∈ (processChatMsg ct processed m).1 := by
  by_cases hskip : messageTimestamp m = 0 ∨ messageTimestamp m ≤ ct
  · exfalso
    cases hid : msgIdStr m <;> simp [processChatMsg, hskip, hid] at h
  · cases hid : msgIdStr m with
    | none =>
      exfalso
      simp [processChatMsg, hskip, hid] at h
    | some i =>
      by_cases hi : i ∈ processed
      · exfalso
        simp [processChatMsg, hskip, hid, hi] at h
      · exact ⟨i, rfl, by simp [processChatMsg, hskip, hid, hi]⟩

theorem processMsgs_mem (ct : ℕ) (x : String) :
    ∀ (msgs : List ChatMsg) (processed : List String),
    x ∈ (processMsgs ct processed msgs).1 ↔
      x ∈ processed ∨ ∃ m ∈ msgs, msgIdStr m = some x := by
  intro msgs
  induction msgs with
  | nil => intro p; simp [processMsgs]
  | cons m rest ih =>
    intro p
    simp only [processMsgs]
    rw [ih, processChatMsg_mem]
    simp only [List.mem_cons]
    constructor
    · rintro ((h | h) | ⟨m', hm', h⟩)
      · exact Or.inl h
      · exact Or.inr ⟨m, Or.inl rfl, h⟩
      · exact Or.inr ⟨m', Or.inr hm', h⟩
    · rintro (h | ⟨m', (rfl | hm'), h⟩)
      · exact Or.inl (Or.inl h)
      · exact Or.inl (Or.inr h)
      · exact Or.inr ⟨m', hm', h⟩

theorem processMsgs_count (ct : ℕ) (x : String) :
    ∀ (msgs : List ChatMsg) (processed : List String),
    (∀ m ∈ msgs, msgIdStr m = some x → ct < messageTimestamp m) →
    dispatchCount x (processMsgs ct processed msgs).2 =
      if x ∈ processed then 0
      else if ∃ m ∈ msgs, msgIdStr m = some x then 1 else 0 := by
  intro msgs
  induction msgs with
  | nil =>
    intro p _
    simp [processMsgs, dispatchCount]
  | cons m rest ih =>
    intro p hfresh
    have hfresh' : ∀ m' ∈ rest, msgIdStr m' = some x → ct < messageTimestamp m' :=
      fun m' hm' => hfresh m' (List.mem_cons_of_mem _ hm')
    simp only [processMsgs]
    by_cases hmx : msgIdStr m = some x
    · have hts : ct < messageTimestamp m := hfresh m (List.mem_cons_self m rest) hmx
      have hnskip : ¬(messageTimestamp m = 0 ∨ messageTimestamp m ≤ ct) := by
        rintro (h | h)
        · omega
        · omega
      by_cases hxp : x ∈ p
      · have h2 : (processChatMsg ct p m).2 = false := by
          unfold processChatMsg
          simp [hnskip, hmx, hxp]
        have h1 : (processChatMsg ct p m).1 = p := by
          unfold processChatMsg
          simp [hnskip, hmx, hxp]
        rw [h2, h1]
        simp only [if_neg (by simp : ¬false = true)]
        rw [ih p hfresh']
        simp [hxp]
      · have h2 : (processChatMsg ct p m).2 = true := by
          unfold processChatMsg
          simp [hnskip, hmx, hxp]
        have h1 : (processChatMsg ct p m).1 = x :: p := by
          unfold processChatMsg
          simp [hnskip, hmx, hxp]
        rw [h2, h1]
        simp only [if_pos rfl]
        have hrest : dispatchCount x (processMsgs ct (x :: p) rest).2 = 0 := by
          rw [ih (x :: p) hfresh']
          simp
        have hb : (msgIdStr m == some x) = true := by simp [hmx]
        have hrest' : (List.filter (fun m' => msgIdStr m' == some x)
            (processMsgs ct (x :: p) rest).2).length = 0 := hrest
        simp [dispatchCount, List.filter_cons, hb, hrest', hmx, hxp]
    · have hcount :
          dispatchCount x
            (if (processChatMsg ct p m).2 then m :: (processMsgs ct (processChatMsg ct p m).1 rest).2
             else (processMsgs ct (processChatMsg ct p m).1 rest).2) =
          dispatchCount x (processMsgs ct (processChatMsg ct p m).1 rest).2 := by
        have hb : (msgIdStr m == some x) = false := by
          simpa using hmx
        cases h2 : (processChatMsg ct p m).2 <;>
          simp [dispatchCount, List.filter_cons, hb]
      rw [hcount, ih _ hfresh']
      have hmem : x ∈ (processChatMsg ct p m).1 ↔ x ∈ p := by
        rw [processChatMsg_mem]
        simp [hmx]
      have hex : (∃ m' ∈ m :: rest, msgIdStr m' = some x) ↔
          (∃ m' ∈ rest, msgIdStr m' = some x) := by
        simp only [List.mem_cons]
        constructor
        · rintro ⟨m', (rfl | hm'), h⟩
          · exact absurd h hmx
          · exact ⟨m', hm', h⟩
        · rintro ⟨m', hm', h⟩
          exact ⟨m', Or.inr hm', h⟩
      by_cases hxp : x ∈ p
      · simp [hxp, hmem.mpr hxp]
      · have hxq : x ∉ (processChatMsg ct p m).1 := fun h => hxp (hmem.mp h)
        simp only [if_neg hxq, if_neg hxp]
        by_cases he : ∃ m' ∈ rest, msgIdStr m' = some x
        · simp [he, hex.mpr he]
        · simp [he, hmx, fun h => he (hex.mp h)]

theorem chatCallbacks_count (x : String) :
    ∀ (batches : List (List ChatMsg)) (s : ChatSub) (ct : ℕ),
    s.ready = true → s.connectionTime = some ct → ct ≠ 0 →
    (∀ b ∈ batches, ∀ m ∈ b, msgIdStr m = some x → ct < messageTimestamp m) →
    dispatchCount x (chatCallbacks s batches).2 =
      if x ∈ s.processedMsgIds then 0
      else if ∃ b ∈ batches, ∃ m ∈ b, msgIdStr m = some x then 1 else 0 := by
  intro batches
  induction batches with
  | nil =>
    intro s ct _ _ _ _
    simp [chatCallbacks, dispatchCount]
  | cons b bs ih =>
    intro s ct hready hct hct0 hfresh
    have hcb : chatCallback s b =
        ({ s with processedMsgIds := (processMsgs ct s.processedMsgIds b).1 },
         (processMsgs ct s.processedMsgIds b).2) := by
      unfold chatCallback
      rw [hct]
      simp [hready, hct0]
    simp only [chatCallbacks, hcb]
    have hbfresh : ∀ m ∈ b, msgIdStr m = some x → ct < messageTimestamp m :=
      hfresh b (List.mem_cons_self b bs)
    have hbsfresh :
        ∀ b' ∈ bs, ∀ m ∈ b', msgIdStr m = some x → ct < messageTimestamp m :=
      fun b' hb' => hfresh b' (List.mem_cons_of_mem _ hb')
    have happ : ∀ d1 d2, dispatchCount x (d1 ++ d2) =
        dispatchCount x d1 + dispatchCount x d2 := by
      intro d1 d2
      simp [dispatchCount, List.filter_append]
    rw [happ]
    rw [processMsgs_count ct x b s.processedMsgIds hbfresh]
    have hready' : ({ s with
        processedMsgIds := (processMsgs ct s.processedMsgIds b).1 } : ChatSub).ready = true :=
      hready
    have hct' : ({ s with
        processedMsgIds := (processMsgs ct s.processedMsgIds b).1 } : ChatSub).connectionTime =
        some ct := hct
    rw [ih { s with processedMsgIds := (processMsgs ct s.processedMsgIds b).1 }
      ct hready' hct' hct0 hbsfresh]
    have hmem : x ∈ (processMsgs ct s.processedMsgIds b).1 ↔
        x ∈ s.processedMsgIds ∨ ∃ m ∈ b, msgIdStr m = some x :=
      processMsgs_mem ct x b s.processedMsgIds
    simp only [List.exists_mem_cons_iff]
    by_cases hxp : x ∈ s.processedMsgIds
    · simp [hxp, hmem.mpr (Or.inl hxp)]
    · by_cases hbe : ∃ m ∈ b, msgIdStr m = some x
      · have hxq : x ∈ (processMsgs ct s.processedMsgIds b).1 :=
          hmem.mpr (Or.inr hbe)
        simp [hxp, hbe, hxq]
      · have hxq : x ∉ (processMsgs ct s.processedMsgIds b).1 := by
          intro h
          rcases hmem.mp h with h | h
          · exact hxp h
          · exact hbe h
        simp [hxp, hbe, hxq]

/-- C1: while connected, a message in a delivered batch is dispatched to
the handler iff its creation timestamp is strictly after the recorded
connection time and its id is not already in the processed-id set; the
id is inserted into the set before the dispatch happens; and across any
sequence of overlapping batches an id meeting those conditions is
dispatched exactly once. -/
theorem chat_dedup_dispatch_exactly_once :
    (∀ (ct : ℕ) (processed : List String) (m : ChatMsg) (i : String),
      msgIdStr m = some i →
      ((processChatMsg ct processed m).2 = true ↔
        (ct < messageTimestamp m ∧ i ∉ processed))) ∧
    (∀ (ct : ℕ) (processed : List String) (m : ChatMsg),
      (processChatMsg ct processed m).2 = true →
      ∃ i, msgIdStr m = some i ∧ i ∈ (processChatMsg ct processed m).1) ∧
    (∀ (s : ChatSub) (ct : ℕ) (batches : List (List ChatMsg)) (x : String),
      s.ready = true → s.connectionTime = some ct → 0 < ct →
      x ∉ s.processedMsgIds →
      (∀ b ∈ batches, ∀ m ∈ b, msgIdStr m = some x → ct < messageTimestamp m) →
      (∃ b ∈ batches, ∃ m ∈ b, msgIdStr m = some x) →
      dispatchCount x (chatCallbacks s batches).2 = 1) := by
  refine ⟨processChatMsg_dispatch_iff,
          processChatMsg_insert_before_dispatch,
          fun s ct batches x hready hct hct0 hxp hfresh hex => ?_⟩
  rw [chatCallbacks_count x batches s ct hready hct (Nat.pos_iff_ne_zero.mp hct0) hfresh]
  simp [hxp, hex]

/-- A fresh chat message with id "X", created after the connection
time used by the witness. -/
def exampleChatMsg : ChatMsg := { id := some "X", createdAt := some 100 }

/-- A connected chat-subscription state with an empty processed set. -/
def exampleChatSub : ChatSub :=
  { ready := true, connectionTime := some 50, processedMsgIds := [] }

/-- Witness for C1: the same message delivered in 5 overlapping batches
is dispatched exactly once. -/
theorem chat_dedup_dispatch_exactly_once_witness :
    dispatchCount "X"
        (chatCallbacks exampleChatSub (List.replicate 5 [exampleChatMsg])).2 = 1 :=
  chat_dedup_dispatch_exactly_once.2.2 exampleChatSub 50
    (List.replicate 5 [exampleChatMsg]) "X" rfl rfl (by decide) (by decide)
    (by decide) (by decide)

end ChatClaims

/-! ### Connection lifecycle (C8) -/

section LifecycleClaims

open HyperfyService

/-- The field-initialiser state of a freshly constructed `HyperfyService`
(service.ts:48-75). -/
def freshService : ServiceState :=
  { world := false, controls := false, isConnectedState := false,
    currentEntities := [], playerNamesMap := [], processedMsgIds := [],
    connectionTime := none, wsUrl := none, currentWorldId := none,
    agentStateHasData := false, tickIntervalId := false,
    entityUpdateIntervalId := false, randomMoveIntervalId := false,
    randomChatIntervalId := false, appearanceIntervalId := false,
    appearanceSet := false, nameSet := false, isPhysicsSetup := false,
    physx := false, entityListenersAttached := false }

theorem handleDisconnect_tornDown (s : ServiceState)
    (h : s.isConnectedState = true ∨ s.world = true)
    (hl : s.entityListenersAttached = true → s.world = true) :
    TornDown (handleDisconnect s) := by
  have hg : ¬(!s.isConnectedState && !s.world) = true := by
    rcases h with h | h <;> simp [h]
  unfold handleDisconnect
  rw [if_neg hg]
  by_cases hw : s.world = true
  · simp [stopSimulation, stopEntityUpdates, stopRandomChatting,
      stopAppearancePolling, hw, TornDown]
  · have hl' : s.entityListenersAttached = false := by
      cases hla : s.entityListenersAttached
      · rfl
      · exact absurd (hl hla) hw
    have hwf : s.world = false := by
      cases hww : s.world
      · rfl
      · exact absurd hww hw
    simp [stopSimulation, stopEntityUpdates, stopRandomChatting,
      stopAppearancePolling, hwf, TornDown, hl']

theorem handleDisconnect_noop (s : ServiceState)
    (h1 : s.isConnectedState = false) (h2 : s.world = false) :
    handleDisconnect s = s := by
  unfold handleDisconnect
  simp [h1, h2]

theorem tornDown_assigns (cfg : ConnectConfig) (s : ServiceState)
    (h : TornDown s) :
    TornDown { s with
      wsUrl := some cfg.wsUrl
      currentWorldId := some cfg.worldId
      appearanceSet := false
      nameSet := false
      isPhysicsSetup := false } := h

theorem serviceInv_preamble (cfg : ConnectConfig) (s : ServiceState)
    (h : ServiceInv s) : ServiceInv (connectPreamble cfg s) := by
  unfold connectPreamble
  by_cases hc : s.isConnectedState = true
  · rw [if_pos hc]
    have htd : TornDown (handleDisconnect s) :=
      handleDisconnect_tornDown s (Or.inl hc) h.2
    obtain ⟨t1, t2, t3, t4, t5, t6, t7, t8, t9, t10, t11, t12, t13⟩ := htd
    constructor
    · intro _
      exact tornDown_assigns cfg _ ⟨t1, t2, t3, t4, t5, t6, t7, t8, t9, t10,
        t11, t12, t13⟩
    · intro hla
      exact absurd (show (handleDisconnect s).entityListenersAttached = true
        from hla) (by simp [t13])
  · rw [if_neg hc]
    constructor
    · rintro ⟨hq1, hq2⟩
      exact tornDown_assigns cfg s (h.1 ⟨hq1, hq2⟩)
    · intro hla
      exact h.2 hla

theorem connectStep_world (env : ConnectEnv) (k : ℕ) (s : ServiceState)
    (hk : k ≠ 0) : (connectStep env k s).world = s.world := by
  rcases k with _ | _ | _ | _ | _ | _ | _ | _ | _ | _ | k
  · exact absurd rfl hk
  all_goals rfl

theorem connectStepsUpTo_world (env : ConnectEnv) :
    ∀ (n : ℕ) (s : ServiceState), 1 ≤ n →
    (connectStepsUpTo env n s).world = true := by
  intro n
  induction n with
  | zero => intro s h; omega
  | succ n ih =>
    intro s _
    simp only [connectStepsUpTo]
    by_cases hn : n = 0
    · subst hn
      rfl
    · rw [connectStep_world env n _ hn]
      exact ih s (Nat.one_le_iff_ne_zero.mpr hn)

/-- C8: if any step inside `connect`'s try block throws, the service is
fully torn down — timers stopped, listeners detached, entity cache, name
registry and processed-message-id set cleared, world and controls
references nulled, connection time cleared, marked disconnected — in the
state seen by the caller when the error is re-thrown.  `ServiceInv` is
the reachable-state invariant (a fresh instance satisfies it, see the
witness). -/
theorem connect_failure_full_teardown :
    ∀ (s : ServiceState) (cfg : ConnectConfig) (env : ConnectEnv)
      (failAt : Option ℕ),
    ServiceInv s → (connect s cfg env failAt).1 = Except.error () →
    TornDown (connect s cfg env failAt).2 := by
  intro s cfg env failAt hinv herr
  rcases failAt with _ | k
  · simp [connect] at herr
  · simp only [connect]
    have hinv0 : ServiceInv (connectPreamble cfg s) :=
      serviceInv_preamble cfg s hinv
    by_cases hk : min k connectStepCount = 0
    · rw [hk]
      show TornDown (handleDisconnect (connectPreamble cfg s))
      by_cases hg : (connectPreamble cfg s).isConnectedState = true ∨
          (connectPreamble cfg s).world = true
      · exact handleDisconnect_tornDown _ hg hinv0.2
      · have h1 : (connectPreamble cfg s).isConnectedState = false := by
          cases hcc : (connectPreamble cfg s).isConnectedState
          · rfl
          · exact absurd (Or.inl hcc) hg
        have h2 : (connectPreamble cfg s).world = false := by
          cases hww : (connectPreamble cfg s).world
          · rfl
          · exact absurd (Or.inr hww) hg
        rw [handleDisconnect_noop _ h1 h2]
        exact hinv0.1 ⟨h1, h2⟩
    · have hw : (connectStepsUpTo env (min k connectStepCount)
          (connectPreamble cfg s)).world = true :=
        connectStepsUpTo_world env _ _ (Nat.one_le_iff_ne_zero.mpr hk)
      exact handleDisconnect_tornDown _ (Or.inr hw) (fun _ => hw)

/-- Witness for C8: a fresh service whose `connect` fails at the very
first step (`createNodeClientWorld`) is fully torn down when the error
surfaces. -/
theorem connect_failure_full_teardown_witness :
    TornDown (connect freshService
      { wsUrl := "wss://chill.hyperfy.xyz/ws", worldId := "world-1" }
      { initialEntities := ["e1"], initialPlayerNames := [("e1", "Ann")],
        chatHistoryIds := ["m1"], now := 1234 } (some 0)).2 :=
  connect_failure_full_teardown freshService _ _ (some 0)
    ⟨fun _ => ⟨rfl, rfl, rfl, rfl, rfl, rfl, rfl, rfl, rfl, rfl, rfl, rfl, rfl⟩,
     fun h => absurd h (by decide)⟩ rfl

end LifecycleClaims

/-! ### Simulation clock (C9) -/

section SimClaims

open HyperfyService

/-- C9 counterexample: the claimed rate-limiting does not cover generic
tick exceptions.  With the last error log only 20 ms in the past (well
inside the 10 s window), a non-ReferenceError exception still emits a
log entry on this very iteration — its logging is not rate-limited. -/
theorem simTick_generic_error_not_rate_limited :
    (simTickIter
        { worldPresent := true, isConnectedState := true,
          tickIntervalId := true, lastTickErrorLogTime := 5000 }
        5020 1 (some { isDocRefError := false }) false).2.2 =
      [TickLog.tickError] := by
  decide

/-- C9 amended: a tick exception never kills the loop — while connected
with the world present the next iteration is always scheduled after
`max(0, tickIntervalMs − elapsed)` with `tickIntervalMs = 1000/50` —
and the logging of the known browser ReferenceError is rate-limited to
one warning per 10 s window, while other errors are logged on every
occurrence; the loop stops (with its timer cleared) only when the
connection state is no longer connected or the world reference is
gone. -/
theorem simulation_loop_survives_tick_errors :
    (∀ (s : SimLoop) (now elapsed : ℚ) (err : Option TickErr),
      s.worldPresent = true → s.isConnectedState = true →
      s.tickIntervalId = true →
      (simTickIter s now elapsed err false).2.1 =
        SimIterNext.rescheduled (max 0 (tickIntervalMs - elapsed))) ∧
    (∀ (s : SimLoop) (now elapsed : ℚ) (disc : Bool),
      s.worldPresent = true → s.isConnectedState = true →
      now - s.lastTickErrorLogTime ≤ tickErrorLogInterval →
      (simTickIter s now elapsed (some { isDocRefError := true }) disc).2.2 =
        []) ∧
    (∀ (s : SimLoop) (now elapsed : ℚ) (disc : Bool),
      s.worldPresent = true → s.isConnectedState = true →
      tickErrorLogInterval < now - s.lastTickErrorLogTime →
      (simTickIter s now elapsed (some { isDocRefError := true }) disc).2.2 =
          [TickLog.suppressedDocRefWarn] ∧
        (simTickIter s now elapsed
            (some { isDocRefError := true }) disc).1.lastTickErrorLogTime =
          now) ∧
    (∀ (s : SimLoop) (now elapsed : ℚ) (disc : Bool),
      s.worldPresent = true → s.isConnectedState = true →
      (simTickIter s now elapsed (some { isDocRefError := false }) disc).2.2 =
        [TickLog.tickError]) ∧
    (∀ (s : SimLoop) (now elapsed : ℚ) (err : Option TickErr) (disc : Bool),
      s.tickIntervalId = true →
      (∀ d, (simTickIter s now elapsed err disc).2.1 ≠
        SimIterNext.rescheduled d) →
      ((simTickIter s now elapsed err disc).1.isConnectedState = false ∨
       (simTickIter s now elapsed err disc).1.worldPresent = false)) := by
  refine ⟨fun s now elapsed err hw hc ht => ?_,
          fun s now elapsed disc hw hc hle => ?_,
          fun s now elapsed disc hw hc hgt => ?_,
          fun s now elapsed disc hw hc => ?_,
          fun s now elapsed err disc ht hne => ?_⟩
  · cases err with
    | none => simp [simTickIter, hw, hc, ht]
    | some e =>
      cases e with
      | mk d =>
        cases d
        · simp [simTickIter, hw, hc, ht]
        · simp [simTickIter, hw, hc, ht]
  · simp [simTickIter, hw, hc, not_lt.mpr hle]
    all_goals split_ifs <;> simp
  · simp [simTickIter, hw, hc, hgt]
    all_goals split_ifs <;> simp
  · simp [simTickIter, hw, hc]
    all_goals split_ifs <;> simp
  · by_cases hg1 : s.worldPresent = true
    · by_cases hg2 : s.isConnectedState = true
      · by_cases hd : disc = true
        · refine Or.inl ?_
          cases err with
          | none => simp [simTickIter, hg1, hg2, hd]
          | some e =>
            cases e with
            | mk d =>
              cases d
              · simp [simTickIter, hg1, hg2, hd]
              · simp [simTickIter, hg1, hg2, hd]
        · exfalso
          apply hne (max 0 (tickIntervalMs - elapsed))
          have hdf : disc = false := by
            cases disc with
            | false => rfl
            | true => exact absurd rfl hd
          cases err with
          | none => simp [simTickIter, hg1, hg2, ht, hdf]
          | some e =>
            cases e with
            | mk d =>
              cases d
              · simp [simTickIter, hg1, hg2, ht, hdf]
              · simp [simTickIter, hg1, hg2, ht, hdf]
      · refine Or.inl ?_
        have hcf : s.isConnectedState = false := by
          cases hcc : s.isConnectedState with
          | false => rfl
          | true => exact absurd hcc hg2
        simp [simTickIter, hcf]
    · refine Or.inr ?_
      have hwf : s.worldPresent = false := by
        cases hww : s.worldPresent with
        | false => rfl
        | true => exact absurd hww hg1
      simp [simTickIter, hwf]

/-- Witness for the amended C9: a failing tick while connected is
rescheduled after `max(0, tickIntervalMs − elapsed)`. -/
theorem simulation_loop_survives_tick_errors_witness :
    (simTickIter
        { worldPresent := true, isConnectedState := true,
          tickIntervalId := true, lastTickErrorLogTime := 0 }
        100 3 (some { isDocRefError := false }) false).2.1 =
      SimIterNext.rescheduled (max 0 (tickIntervalMs - 3)) :=
  simulation_loop_survives_tick_errors.1 _ 100 3 _ rfl rfl rfl

end SimClaims

/-! ### Navigation tick geometry (C4, C5) -/

theorem lengthSq_nonneg (v : Vec3) : 0 ≤ Vec3.lengthSq v :=
  add_nonneg (add_nonneg (mul_self_nonneg v.x) (mul_self_nonneg v.y))
    (mul_self_nonneg v.z)

theorem length_mul_self (v : Vec3) :
    Vec3.length v * Vec3.length v = Vec3.lengthSq v := by
  unfold Vec3.length
  exact Real.mul_self_sqrt (lengthSq_nonneg v)

theorem normalize_lengthSq (v : Vec3) (h : Vec3.length v ≠ 0) :
    Vec3.lengthSq (Vec3.normalize v) = 1 := by
  have hsq := length_mul_self v
  unfold Vec3.normalize
  rw [if_neg h]
  unfold Vec3.divScalar Vec3.lengthSq at *
  field_simp
  linarith [hsq]

theorem lengthSq_setY_sub (pos target : Vec3) :
    Vec3.lengthSq (Vec3.setY (Vec3.sub target pos) 0) =
      Vec3.lengthSq (Vec3.sub (Vec3.setY pos 0) (Vec3.setY target 0)) := by
  unfold Vec3.lengthSq Vec3.setY Vec3.sub
  ring

theorem navDistanceXZ_eq_length (pos target : Vec3) :
    AgentControls.navDistanceXZ pos target =
      Vec3.length (Vec3.setY (Vec3.sub target pos) 0) := by
  unfold AgentControls.navDistanceXZ Vec3.distanceTo Vec3.length
  rw [lengthSq_setY_sub]

theorem navDirectionWorld_lengthSq_one (pos target : Vec3)
    (h : 1 < AgentControls.navDistanceXZ pos target) :
    Vec3.lengthSq (AgentControls.navDirectionWorld pos target) = 1 := by
  unfold AgentControls.navDirectionWorld
  apply normalize_lengthSq
  rw [navDistanceXZ_eq_length] at h
  intro h0
  rw [h0] at h
  norm_num at h

/-- Release lemma: `stopNavigation` on a navigating state leaves the
five movement keys up. -/
theorem stopNavigation_releases (s : AgentControls) (r : String)
    (hg : s.isNavigating = true) :
    (AgentControls.keyState (AgentControls.stopNavigation s r) "keyW").down = false ∧
    (AgentControls.keyState (AgentControls.stopNavigation s r) "keyA").down = false ∧
    (AgentControls.keyState (AgentControls.stopNavigation s r) "keyS").down = false ∧
    (AgentControls.keyState (AgentControls.stopNavigation s r) "keyD").down = false ∧
    (AgentControls.keyState (AgentControls.stopNavigation s r) "shiftLeft").down = false := by
  have hkeys : ∀ t : AgentControls,
      AgentControls.keyState (AgentControls.stopRandomWalkNavStopped t) =
        AgentControls.keyState t := by
    intro t
    unfold AgentControls.stopRandomWalkNavStopped
    split <;> rfl
  unfold AgentControls.stopNavigation
  simp only [hg, Bool.true_or, if_true]
  have hdown : ∀ (t : AgentControls) (k : String),
      (k = "keyW" ∨ k = "keyA" ∨ k = "keyS" ∨ k = "keyD" ∨ k = "shiftLeft") →
      (AgentControls.keyState
        (AgentControls.setKey (AgentControls.setKey (AgentControls.setKey
          (AgentControls.setKey (AgentControls.setKey t "keyW" false)
            "keyA" false) "keyS" false) "keyD" false) "shiftLeft" false)
        k).down = false := by
    intro t k hk
    rcases hk with rfl | rfl | rfl | rfl | rfl
    · rw [keyState_setKey_other _ _ _ _ (by decide),
        keyState_setKey_other _ _ _ _ (by decide),
        keyState_setKey_other _ _ _ _ (by decide),
        keyState_setKey_other _ _ _ _ (by decide),
        keyState_setKey_same]
      exact buttonTransition_down _ _
    · rw [keyState_setKey_other _ _ _ _ (by decide),
        keyState_setKey_other _ _ _ _ (by decide),
        keyState_setKey_other _ _ _ _ (by decide),
        keyState_setKey_same]
      exact buttonTransition_down _ _
    · rw [keyState_setKey_other _ _ _ _ (by decide),
        keyState_setKey_other _ _ _ _ (by decide),
        keyState_setKey_same]
      exact buttonTransition_down _ _
    · rw [keyState_setKey_other _ _ _ _ (by decide),
        keyState_setKey_same]
      exact buttonTransition_down _ _
    · rw [keyState_setKey_same]
      exact buttonTransition_down _ _
  have hcnk : ∀ (t : AgentControls) (c : NavKeys) (k : String),
      AgentControls.keyState { t with currentNavKeys := c } k =
        AgentControls.keyState t k := fun _ _ _ => rfl
  split
  · refine ⟨?_, ?_, ?_, ?_, ?_⟩ <;>
      rw [hkeys, hcnk] <;>
      exact hdown _ _ (by simp)
  · refine ⟨?_, ?_, ?_, ?_, ?_⟩ <;>
      rw [hcnk] <;>
      exact hdown _ _ (by simp)

/-- C5: a navigation tick within the stop threshold of the target is
exactly a `stopNavigation("reached target")` call — no further movement
computation — and the five movement-related keys are down-released by
that single call. -/
theorem navigation_tick_stop_at_target :
    ∀ (s : AgentControls) (p : Player) (body : PlayerBody) (target : Vec3),
      s.isNavigating = true → s.navigationTarget = some target →
      s.player = some p → p.base = some body →
      AgentControls.navDistanceXZ body.position target ≤
        AgentControls.NAVIGATION_STOP_DISTANCE →
      AgentControls.navigationTick s =
          AgentControls.stopNavigation s "reached target" ∧
        (AgentControls.keyState (AgentControls.navigationTick s) "keyW").down = false ∧
        (AgentControls.keyState (AgentControls.navigationTick s) "keyA").down = false ∧
        (AgentControls.keyState (AgentControls.navigationTick s) "keyS").down = false ∧
        (AgentControls.keyState (AgentControls.navigationTick s) "keyD").down = false ∧
        (AgentControls.keyState (AgentControls.navigationTick s) "shiftLeft").down = false := by
  intro s p body target hnav htgt hpl hbase hdist
  have htick : AgentControls.navigationTick s =
      AgentControls.stopNavigation s "reached target" := by
    unfold AgentControls.navigationTick
    simp only [hnav, htgt, hpl, hbase, Bool.not_true, Bool.false_eq_true,
      if_false, hdist, if_true]
  refine ⟨htick, ?_⟩
  rw [htick]
  have hr := stopNavigation_releases s "reached target" hnav
  exact ⟨hr.1, hr.2.1, hr.2.2.1, hr.2.2.2.1, hr.2.2.2.2⟩

/-- State used by the C5 witness: a fresh controls instance told to
navigate to the point it is already standing on. -/
def exampleReachedState : AgentControls :=
  AgentControls.navigateTo (AgentControls.initial (some examplePlayer)) 0 0

/-- Witness for C5 at a concrete within-threshold state. -/
theorem navigation_tick_stop_at_target_witness :
    AgentControls.navigationTick exampleReachedState =
        AgentControls.stopNavigation exampleReachedState "reached target" ∧
      (AgentControls.keyState (AgentControls.navigationTick exampleReachedState) "keyW").down = false ∧
      (AgentControls.keyState (AgentControls.navigationTick exampleReachedState) "keyA").down = false ∧
      (AgentControls.keyState (AgentControls.navigationTick exampleReachedState) "keyS").down = false ∧
      (AgentControls.keyState (AgentControls.navigationTick exampleReachedState) "keyD").down = false ∧
      (AgentControls.keyState (AgentControls.navigationTick exampleReachedState) "shiftLeft").down = false := by
  refine navigation_tick_stop_at_target exampleReachedState examplePlayer
    exampleBody (Vec3.mk 0 0 0) rfl rfl rfl rfl ?_
  show AgentControls.navDistanceXZ (Vec3.mk 0 0 0) (Vec3.mk 0 0 0) ≤ 1
  rw [navDistanceXZ_eq_length]
  unfold Vec3.length
  norm_num [Vec3.lengthSq, Vec3.setY, Vec3.sub, Real.sqrt_zero]

/-- C4: the steering policy of the navigation tick.  Part one
characterises the desired-keys table as a function of the signed heading
angle: beyond the 45-degree threshold the keys are turn-only (left for a
negative angle, right otherwise, never forward); within it, forward is
set and a left/right steer is added exactly when the angle magnitude
exceeds the ~10-degree deadband.  Part two: on a tick with a valid pose,
distance above the stop threshold and a non-degenerate planar forward
vector, the tick is exactly the application of that policy at the
computed signed heading angle. -/
theorem navigation_tick_steering_policy :
    (∀ a : ℝ,
      (AgentControls.desiredNavKeys a).backward = false ∧
      (AgentControls.turnThreshold < |a| →
        (AgentControls.desiredNavKeys a).forward = false ∧
        ((AgentControls.desiredNavKeys a).left = true ↔ a < 0) ∧
        ((AgentControls.desiredNavKeys a).right = true ↔ 0 ≤ a)) ∧
      (|a| ≤ AgentControls.turnThreshold →
        (AgentControls.desiredNavKeys a).forward = true ∧
        ((AgentControls.desiredNavKeys a).left = true ↔
          (AgentControls.forwardThreshold < |a| ∧ a < 0)) ∧
        ((AgentControls.desiredNavKeys a).right = true ↔
          (AgentControls.forwardThreshold < |a| ∧ 0 ≤ a)) ∧
        (((AgentControls.desiredNavKeys a).left = true ∨
          (AgentControls.desiredNavKeys a).right = true) ↔
          AgentControls.forwardThreshold < |a|))) ∧
    (∀ (s : AgentControls) (p : Player) (body : PlayerBody) (target : Vec3),
      s.isNavigating = true → s.navigationTarget = some target →
      s.player = some p → p.base = some body →
      AgentControls.NAVIGATION_STOP_DISTANCE <
        AgentControls.navDistanceXZ body.position target →
      (0.001 : ℝ) ≤ Vec3.lengthSq (AgentControls.navForwardWorld body.quaternion) →
      AgentControls.navigationTick s =
        AgentControls.applyNavKeys s
          (AgentControls.desiredNavKeys
            (AgentControls.navSignedAngle body.position target body.quaternion))) := by
  constructor
  · intro a
    refine ⟨?_, fun h1 => ?_, fun h1 => ?_⟩
    · unfold AgentControls.desiredNavKeys
      split_ifs <;> rfl
    · unfold AgentControls.desiredNavKeys
      rw [if_pos h1]
      by_cases h2 : a < 0
      · rw [if_pos h2]
        exact ⟨rfl, by simp [NavKeys.allOff, h2],
          by simp [NavKeys.allOff, not_le.mpr h2]⟩
      · rw [if_neg h2]
        exact ⟨rfl, by simp [NavKeys.allOff, h2],
          by simp [NavKeys.allOff, not_lt.mp h2]⟩
    · unfold AgentControls.desiredNavKeys
      rw [if_neg (not_lt.mpr h1)]
      by_cases h2 : AgentControls.forwardThreshold < |a|
      · rw [if_pos h2]
        by_cases h3 : a < 0
        · rw [if_pos h3]
          exact ⟨rfl, by simp [NavKeys.allOff, h2, h3],
            by simp [NavKeys.allOff, not_le.mpr h3],
            by simp [NavKeys.allOff, h2]⟩
        · rw [if_neg h3]
          exact ⟨rfl, by simp [NavKeys.allOff, h3],
            by simp [NavKeys.allOff, h2, not_lt.mp h3],
            by simp [NavKeys.allOff, h2]⟩
      · rw [if_neg h2]
        exact ⟨rfl, by simp [NavKeys.allOff, h2],
          by simp [NavKeys.allOff, h2], by simp [NavKeys.allOff, h2]⟩
  · intro s p body target hnav htgt hpl hbase hdist hfwd
    have hdist1 : (1 : ℝ) < AgentControls.navDistanceXZ body.position target :=
      hdist
    have hd1 : Vec3.lengthSq (AgentControls.navDirectionWorld body.position target) = 1 :=
      navDirectionWorld_lengthSq_one _ _ hdist1
    unfold AgentControls.navigationTick
    simp only [hnav, htgt, hpl, hbase, Bool.not_true, Bool.false_eq_true,
      if_false]
    rw [if_neg (not_le.mpr hdist)]
    rw [if_neg (not_lt.mpr hfwd)]
    rw [if_neg (by rw [hd1]; norm_num)]

/-- Square root of 25, used by the C4 witness geometry. -/
theorem sqrt_twentyfive : Real.sqrt 25 = 5 := by
  rw [show (25 : ℝ) = 5 ^ 2 by norm_num]
  exact Real.sqrt_sq (by norm_num)

/-- A player body at the origin whose quaternion (a half-turn about the
vertical axis) rotates the local forward `(0,0,-1)` onto `+Z`. -/
def examplePlusZBody : PlayerBody :=
  { position := Vec3.mk 0 0 0, quaternion := Quat.mk 0 1 0 0 }

/-- The player wrapping `examplePlusZBody`. -/
def examplePlusZPlayer : Player :=
  { base := some examplePlusZBody, hasJumpFn := false }

/-- Fresh controls instance navigating from the origin (facing `+Z`)
toward `(0, 0, 5)`, before its first tick. -/
def exampleNavState : AgentControls :=
  AgentControls.navigateTo (AgentControls.initial (some examplePlusZPlayer)) 0 5

theorem examplePlusZ_quat_normalize :
    Quat.normalize (Quat.mk 0 1 0 0) = Quat.mk 0 1 0 0 := by
  unfold Quat.normalize Quat.length
  norm_num [Real.sqrt_one]

theorem examplePlusZ_forward :
    AgentControls.navForwardWorld (Quat.mk 0 1 0 0) = Vec3.mk 0 0 1 := by
  unfold AgentControls.navForwardWorld
  rw [examplePlusZ_quat_normalize]
  norm_num [Vec3.applyQuaternion, Vec3.setY, Vec3.normalize, Vec3.length,
    Vec3.lengthSq, Vec3.divScalar, Real.sqrt_one]

theorem examplePlusZ_direction :
    AgentControls.navDirectionWorld (Vec3.mk 0 0 0) (Vec3.mk 0 0 5) =
      Vec3.mk 0 0 1 := by
  unfold AgentControls.navDirectionWorld
  norm_num [Vec3.sub, Vec3.setY, Vec3.normalize, Vec3.length, Vec3.lengthSq,
    Vec3.divScalar, sqrt_twentyfive]

theorem examplePlusZ_angle :
    AgentControls.navSignedAngle (Vec3.mk 0 0 0) (Vec3.mk 0 0 5)
      (Quat.mk 0 1 0 0) = 0 := by
  unfold AgentControls.navSignedAngle
  rw [examplePlusZ_forward, examplePlusZ_direction]
  norm_num [Vec3.angleTo, Vec3.dot, Vec3.cross, Vec3.lengthSq,
    Real.sqrt_one, Real.arccos_one]

theorem desiredNavKeys_zero :
    AgentControls.desiredNavKeys 0 = { NavKeys.allOff with forward := true } := by
  have h4 : (0 : ℝ) < AgentControls.turnThreshold :=
    div_pos Real.pi_pos (by norm_num)
  have h18 : (0 : ℝ) < AgentControls.forwardThreshold :=
    div_pos Real.pi_pos (by norm_num)
  unfold AgentControls.desiredNavKeys
  rw [abs_zero, if_neg (not_lt.mpr h4.le), if_neg (not_lt.mpr h18.le)]

/-- Witness for C4: the spec's concrete example — embodiment at the
origin facing `+Z`, target `(0,0,5)` — gets `forward = true`,
`left = false`, `right = false` on its first tick. -/
theorem navigation_tick_steering_policy_witness :
    (AgentControls.keyState (AgentControls.navigationTick exampleNavState)
      "keyW").down = true ∧
    (AgentControls.keyState (AgentControls.navigationTick exampleNavState)
      "keyA").down = false ∧
    (AgentControls.keyState (AgentControls.navigationTick exampleNavState)
      "keyD").down = false := by
  have hdistex : AgentControls.NAVIGATION_STOP_DISTANCE <
      AgentControls.navDistanceXZ examplePlusZBody.position (Vec3.mk 0 0 5) := by
    show (1 : ℝ) < AgentControls.navDistanceXZ (Vec3.mk 0 0 0) (Vec3.mk 0 0 5)
    rw [navDistanceXZ_eq_length]
    unfold Vec3.length
    norm_num [Vec3.lengthSq, Vec3.setY, Vec3.sub, sqrt_twentyfive]
  have hfsq : (0.001 : ℝ) ≤
      Vec3.lengthSq (AgentControls.navForwardWorld examplePlusZBody.quaternion) := by
    rw [show AgentControls.navForwardWorld examplePlusZBody.quaternion =
      Vec3.mk 0 0 1 from examplePlusZ_forward]
    norm_num [Vec3.lengthSq]
  have heq := navigation_tick_steering_policy.2 exampleNavState
    examplePlusZPlayer examplePlusZBody (Vec3.mk 0 0 5) rfl rfl rfl rfl
    hdistex hfsq
  rw [heq,
    show AgentControls.navSignedAngle examplePlusZBody.position
      (Vec3.mk 0 0 5) examplePlusZBody.quaternion = 0 from examplePlusZ_angle,
    desiredNavKeys_zero]
  decide

end Hyperfy
